import Mathlib

/-!
# Verification of the bulk CMR query pipeline (`src/bulk_cmr_query.py`)

A shallow embedding of the paginated-discovery / link-extraction / download
pipeline.  HTTP is modelled by environment functions mapping a request to the
response the server would give; Python string operations (`in`, `endswith`,
`split`, `replace`) are re-implemented structurally over `List Char` so that
every definition is executable by the kernel.
-/

namespace BulkCmrQuery

/-! ## Python string primitives

Structurally recursive models of the Python string operations used by the
script.  All are faithful to CPython semantics at the call sites (non-empty
patterns). -/

/-- `listStartsWith l pat` : does `l` start with the pattern `pat`? -/
def listStartsWith : List Char → List Char → Bool
  | _, [] => true
  | [], _ :: _ => false
  | a :: as, b :: bs => a == b && listStartsWith as bs

/-- `occursIn pat l` : does `pat` occur as a contiguous sublist of `l`?
Models Python's `pat in s` substring test. -/
def occursIn (pat : List Char) : List Char → Bool
  | [] => pat.isEmpty
  | c :: rest => listStartsWith (c :: rest) pat || occursIn pat rest

/-- Python's `needle in haystack` on strings. -/
def pyIn (needle haystack : String) : Bool :=
  occursIn needle.data haystack.data

/-- Python's `s.endswith(suffix)`. -/
def pyEndsWith (s suffix : String) : Bool :=
  listStartsWith s.data.reverse suffix.data.reverse

/-- Fuel-driven core of Python's `s.replace(pat, rep)` (leftmost,
non-overlapping, replace all).  The fuel is the length of the input, which a
step never fails to consume, so it is never exhausted at the call site. -/
def replaceFuel (pat rep : List Char) : Nat → List Char → List Char
  | _, [] => []
  | 0, l => l
  | fuel + 1, c :: rest =>
    if listStartsWith (c :: rest) pat then
      rep ++ replaceFuel pat rep fuel (rest.drop (pat.length - 1))
    else
      c :: replaceFuel pat rep fuel rest

/-- Python's `s.replace(pat, rep)` for a non-empty pattern (the only kind the
script uses; an empty pattern is returned unchanged). -/
def pyReplace (s pat rep : String) : String :=
  if pat.data.isEmpty then s
  else ⟨replaceFuel pat.data rep.data s.data.length s.data⟩

/-- Split a character list on a separator character; models Python's
`s.split(sep)` for a one-character separator. -/
def splitOnChar (sep : Char) : List Char → List (List Char)
  | [] => [[]]
  | c :: rest =>
    match splitOnChar sep rest with
    | [] => [[]]
    | part :: parts =>
      if c == sep then [] :: part :: parts else (c :: part) :: parts

/-- The characters of `l` strictly before the first occurrence of `pat`,
or `none` when `pat` does not occur.  Used to read off a URL scheme. -/
def takeUntilSub (pat : List Char) : List Char → Option (List Char)
  | [] => if pat.isEmpty then some [] else none
  | c :: rest =>
    if listStartsWith (c :: rest) pat then some []
    else (takeUntilSub pat rest).map (c :: ·)

/-- The scheme of a URL: the text before the first `://`, when present. -/
def schemeOf (url : String) : Option String :=
  (takeUntilSub "://".data url.data).map (fun cs => ⟨cs⟩)

/-! ## Datetimes (`datetime.datetime` restricted to what the script uses) -/

/-- The fields of `datetime.datetime` consumed by
`strftime("%Y-%m-%dT%H:%M:%SZ")`. -/
structure Datetime where
  year : Nat
  month : Nat
  day : Nat
  hour : Nat
  minute : Nat
  second : Nat
deriving DecidableEq

/-- Zero-pad to two digits (strftime `%m`, `%d`, `%H`, `%M`, `%S`). -/
def pad2 (n : Nat) : String :=
  if n < 10 then "0" ++ toString n else toString n

/-- Zero-pad to four digits (strftime `%Y`). -/
def pad4 (n : Nat) : String :=
  if n < 10 then "000" ++ toString n
  else if n < 100 then "00" ++ toString n
  else if n < 1000 then "0" ++ toString n
  else toString n

/-- `d.strftime("%Y-%m-%dT%H:%M:%SZ")`. -/
def Datetime.strftimeZ (d : Datetime) : String :=
  pad4 d.year ++ "-" ++ pad2 d.month ++ "-" ++ pad2 d.day ++ "T" ++
    pad2 d.hour ++ ":" ++ pad2 d.minute ++ ":" ++ pad2 d.second ++ "Z"

/-- `','.join(map(lambda x: x.strftime(...), datetime_range))` for the
two-element range tuple. -/
def temporalParam (r : Datetime × Datetime) : String :=
  r.1.strftimeZ ++ "," ++ r.2.strftimeZ

/-! ## The CMR search request (`requests.get` in `get_cmr_pages_urls`) -/

/-- Module constant `CMR_OPS`. -/
def CMR_OPS : String := "https://cmr.earthdata.nasa.gov/search"

/-- Module constant `URS`. -/
def URS : String := "urs.earthdata.nasa.gov"

/-- The `collections` argument: Python lets a plain `str` flow in where a
`Sequence[str]` is expected, and the script normalizes that case. -/
inductive Collections where
  | str (s : String)
  | list (l : List String)
deriving DecidableEq

/-- The effect of `if isinstance(collections, str): collections =
[collections]` followed by `list(collections)`. -/
def Collections.toList : Collections → List String
  | .str s => [s]
  | .list l => l

/-- The query parameters of the preliminary `requests.get` call. -/
structure CmrRequest where
  base_url : String
  concept_id : List String
  temporal : String
  page_size : Nat
deriving DecidableEq

/-- The parts of the `requests` response object the script reads. -/
structure CmrResponse where
  /-- `response.status_code` -/
  status_code : Nat
  /-- `int(response.headers['CMR-Hits'])` -/
  cmr_hits : Nat
  /-- `response.url`, the fully resolved request URL -/
  url : String
deriving DecidableEq

/-- The request `get_cmr_pages_urls` issues, assembled from its arguments. -/
def cmrRequest (base_url : String) (collections : Collections)
    (datetime_range : Datetime × Datetime) (page_size : Nat) : CmrRequest :=
  ⟨base_url, collections.toList, temporalParam datetime_range, page_size⟩

/-- `f"{response.url}&page_num={x}".replace('granules?', 'granules.json?')`. -/
def pageUrl (resolvedUrl : String) (x : Nat) : String :=
  pyReplace (resolvedUrl ++ "&page_num=" ++ toString x) "granules?" "granules.json?"

/-- `get_cmr_pages_urls`.  The first component is the list of printed
messages (Python list quoting elided); the second is the return value:
`None` (= `none`) on a non-200 status, otherwise the page URL list.
`math.ceil(hits / page_size)` is `(hits + page_size - 1) / page_size` for
positive `page_size`. -/
def get_cmr_pages_urls (env : CmrRequest → CmrResponse) (base_url : String)
    (collections : Collections) (datetime_range : Datetime × Datetime)
    (page_size : Nat) : List String × Option (List String) :=
  let response := env (cmrRequest base_url collections datetime_range page_size)
  if response.status_code ≠ 200 then
    (["Request for collections: " ++ toString collections.toList ++
        " failed. Status code: " ++ toString response.status_code], none)
  else
    let hits := response.cmr_hits
    let n_pages := (hits + page_size - 1) / page_size
    ([], some ((List.range' 1 n_pages).map (pageUrl response.url)))

/-! ## Page fetching and link extraction (`get_tasks`, `get_urls`) -/

/-- The Python exceptions the embedding tracks: `for l in None` raises
`TypeError` in `get_tasks` when discovery returned `None`. -/
inductive PyError where
  | typeError
deriving DecidableEq

/-- `get_tasks`: builds one `session.get(l)` task per discovered page URL.
A task is identified by the URL it will fetch.  Iterating over the `None`
returned by a failed discovery raises `TypeError`. -/
def get_tasks (env : CmrRequest → CmrResponse) (base_url : String)
    (collections : Collections) (datetime_range : Datetime × Datetime)
    (page_size : Nat) : Except PyError (List String) :=
  match (get_cmr_pages_urls env base_url collections datetime_range page_size).2 with
  | none => .error .typeError
  | some urls => .ok urls

/-- One element of a granule's `links` array (only `href` is read). -/
structure Link where
  href : String
deriving DecidableEq

/-- One element of `feed.entry` (only `links` is read). -/
structure Entry where
  links : List Link
deriving DecidableEq

/-- The `feed` object of a page body. -/
structure Feed where
  entry : List Entry
deriving DecidableEq

/-- A parsed page body (`await response.json()`). -/
structure Page where
  feed : Feed
deriving DecidableEq

/-- The link filter: `'https' in l['href'] and l['href'].endswith('.h5')`. -/
def keepHref (href : String) : Bool :=
  pyIn "https" href && pyEndsWith href ".h5"

/-- The per-page list comprehension
`[l['href'] for g in res['feed']['entry'] for l in g['links'] if ...]`. -/
def extractPage (res : Page) : List String :=
  res.feed.entry.flatMap fun g => (g.links.filter fun l => keepHref l.href).map Link.href

/-- `get_urls`: fetch every page concurrently (`asyncio.gather` keeps
submission order), then `result.extend(...)` page by page.  `pages` maps a
page URL to the parsed body its fetch returns. -/
def get_urls (env : CmrRequest → CmrResponse) (pages : String → Page)
    (base_url : String) (collections : Collections)
    (datetime_range : Datetime × Datetime) (page_size : Nat) :
    Except PyError (List String) :=
  match get_tasks env base_url collections datetime_range page_size with
  | .error e => .error e
  | .ok urls =>
    let responses := urls.map pages
    .ok (responses.foldl (fun result response => result ++ extractPage response) [])

/-! ## Downloading (`download_file` and the fan-out in `main`) -/

/-- The parts of an asset response the script reads: the status and the raw
byte stream of the body. -/
structure DlResponse where
  status : Nat
  body : List Nat
deriving DecidableEq

/-- `resp.content.read(16 * 1024)` chunk size. -/
def CHUNK : Nat := 16 * 1024

/-- Fuel-driven splitting of a byte stream into the successive chunks
`read(n)` returns.  For `0 < n`, fuel equal to the stream length is never
exhausted. -/
def chunksOfFuel (n : Nat) : Nat → List α → List (List α)
  | _, [] => []
  | 0, _ :: _ => []
  | fuel + 1, c :: rest => (c :: rest).take n :: chunksOfFuel n fuel ((c :: rest).drop n)

/-- Cut a byte stream into the successive chunks `read(n)` returns; the read
loop stops at the first empty chunk, i.e. when the stream is exhausted. -/
def chunksOf (n : Nat) (l : List α) : List (List α) :=
  chunksOfFuel n l.length l

/-- A local filesystem: file name to byte content. -/
abbrev FS := List (String × List Nat)

/-- Read a file (the most recent write wins). -/
def FS.read (fs : FS) (name : String) : Option (List Nat) :=
  (fs.find? fun p => p.1 == name).map Prod.snd

/-- Open `name` with mode `wb+` (create or truncate) and leave it holding
`content` after the write loop. -/
def FS.write (fs : FS) (name : String) (content : List Nat) : FS :=
  (name, content) :: fs.filter fun p => p.1 != name

/-- What one `download_file` task reports: success, or the per-file failure
printed for a non-200 status. -/
inductive Outcome where
  | downloaded (url : String)
  | failed (url : String)
deriving DecidableEq, Inhabited

/-- `f"data/{url.split('/')[-1]}"`. -/
def fileName (url : String) : String :=
  "data/" ++ ⟨(splitOnChar '/' url.data).getLastD []⟩

/-- `download_file`: on a non-200 status print a failure and return without
touching the filesystem; otherwise open the destination (truncating) and
write the body chunk by chunk. -/
def download_file (env : String → DlResponse) (url : String) (fs : FS) :
    FS × Outcome :=
  let resp := env url
  if resp.status ≠ 200 then (fs, .failed url)
  else
    let content := (chunksOf CHUNK resp.body).foldl (· ++ ·) []
    (fs.write (fileName url) content, .downloaded url)

/-- The download fan-out of `main`: one task per URL, gathered in submission
order.  Each task's outcome and write depend only on its own URL's response,
so the gather is modelled by running the tasks in submission order. -/
def download_all (env : String → DlResponse) (urls : List String) (fs : FS) :
    FS × List Outcome :=
  match urls with
  | [] => (fs, [])
  | u :: rest =>
    let step := download_file env u fs
    let next := download_all env rest step.1
    (next.1, step.2 :: next.2)

/-! ## The netrc credential store and `main` -/

/-- The `~/.netrc` file: absent (`FileNotFoundError` on open) or a list of
`machine / login / account / password` entries. -/
inductive NetrcStore where
  | absent
  | present (entries : List (String × String × String × String))
deriving DecidableEq

/-- `netrc(...).authenticators(host)`: the `(login, account, password)`
triple for `host`, or `None`. -/
def authenticators (entries : List (String × String × String × String))
    (host : String) : Option (String × String × String) :=
  (entries.find? fun e => e.1 == host).map fun e => (e.2.1, e.2.2.1, e.2.2.2)

/-- The credential-resolution step of `main`:
`netrc(netrc_dir).authenticators(URS)` guarded by
`except (FileNotFoundError, TypeError)`, then
`username, _, password = ...`.  `none` is the `NotAuthenticated` outcome. -/
def resolve_credentials (store : NetrcStore) (host : String) :
    Option (String × String) :=
  match store with
  | .absent => none
  | .present entries => (authenticators entries host).map fun t => (t.1, t.2.2)

/-- Everything observable about one run of `main`. -/
structure RunResult where
  /-- `len(results)` as printed -/
  n_results : Nat
  /-- the URLs for which a download request was issued -/
  downloads : List String
  /-- the gathered outcomes of those downloads -/
  outcomes : List Outcome
  /-- the filesystem after the run -/
  fs : FS
  /-- whether the run returned early at the authentication check -/
  authAborted : Bool
deriving DecidableEq

/-- `main`: discovery + extraction, then the authentication check, then the
download fan-out over `results[:5]`.  An uncaught exception in extraction
propagates out (`.error`). -/
def main (cmrEnv : CmrRequest → CmrResponse) (pagesEnv : String → Page)
    (dlEnv : String → DlResponse) (store : NetrcStore) (fs : FS) :
    Except PyError RunResult :=
  match get_urls cmrEnv pagesEnv (CMR_OPS ++ "/" ++ "granules")
      (Collections.list ["C1373412034-LPDAAC_ECS"])
      (⟨2021, 10, 17, 0, 0, 0⟩, ⟨2021, 10, 19, 0, 0, 0⟩) 10 with
  | .error e => .error e
  | .ok results =>
    match store with
    | .absent => .ok ⟨results.length, [], [], fs, true⟩
    | .present entries =>
      match authenticators entries URS with
      | none => .ok ⟨results.length, [], [], fs, true⟩
      | some _ =>
        let toDownload := results.take 5
        let run := download_all dlEnv toDownload fs
        .ok ⟨results.length, toDownload, run.2, run.1, false⟩

/-- The outcome `download_file` reports for a URL, determined by the response
alone. -/
def downloadOutcome (env : String → DlResponse) (url : String) : Outcome :=
  if (env url).status ≠ 200 then .failed url else .downloaded url

/-! ## Concrete test fixtures used by the witness theorems -/

/-- The datetime range hard-coded in `main`. -/
def dtRange : Datetime × Datetime :=
  (⟨2021, 10, 17, 0, 0, 0⟩, ⟨2021, 10, 19, 0, 0, 0⟩)

/-- A server that answers the preliminary request with status 200 and the
given hit count. -/
def okEnv (hits : Nat) : CmrRequest → CmrResponse :=
  fun _ => ⟨200, hits, "https://cmr.e/granules?ps=10"⟩

/-- A server that answers the preliminary request with the given non-200
status. -/
def errEnv (code : Nat) : CmrRequest → CmrResponse :=
  fun _ => ⟨code, 0, "https://cmr.e/granules?ps=10"⟩

/-- A page whose only link matches the `'https' in href` substring test while
its scheme is plain `http`. -/
def cexPage : Page :=
  ⟨⟨[⟨[⟨"http://evil.example/data-https.h5"⟩]⟩]⟩⟩

/-- A page server returning `cexPage` for every page URL. -/
def cexPages : String → Page := fun _ => cexPage

/-- A page server with one matching link, one wrong-suffix link and one
wrong-scheme link per page. -/
def mixedPages : String → Page :=
  fun _ => ⟨⟨[⟨[⟨"https://a/x.h5"⟩, ⟨"https://a/x.xml"⟩, ⟨"ftp://a/y.h5"⟩]⟩]⟩⟩

/-- A page server whose pages contain no matching link at all. -/
def emptyPages : String → Page :=
  fun _ => ⟨⟨[⟨[⟨"https://a/x.xml"⟩]⟩, ⟨[]⟩]⟩⟩

/-- An asset server where asset #2 of 3 answers 404 and the others 200. -/
def dl404Env : String → DlResponse :=
  fun u => if u = "https://a/2.h5" then ⟨404, [9]⟩ else ⟨200, [7, 8]⟩

/-- An asset server that always answers 404. -/
def dlFailEnv : String → DlResponse := fun _ => ⟨404, [1, 2]⟩

end BulkCmrQuery


namespace BulkCmrQuery

/-! ## Helper lemmas -/

theorem listStartsWith_append (l t : List Char) :
    listStartsWith (l ++ t) l = true := by
  induction l with
  | nil => cases t <;> rfl
  | cons a as ih => simp [listStartsWith, ih]

theorem occursIn_append_right (pat pre : List Char) :
    occursIn pat (pre ++ pat) = true := by
  induction pre with
  | nil =>
    cases pat with
    | nil => rfl
    | cons c r =>
      have h := listStartsWith_append (c :: r) []
      simp only [List.append_nil] at h
      simp [occursIn, h]
  | cons c pre ih => simp [occursIn, ih]

theorem pyIn_append_self (needle s : String) :
    pyIn needle (s ++ needle) = true := by
  simp only [pyIn, String.data_append]
  exact occursIn_append_right needle.data s.data

theorem foldl_append_eq_flatten (f : α → List β) (l : List α) (acc : List β) :
    l.foldl (fun r a => r ++ f a) acc = acc ++ (l.map f).flatten := by
  induction l generalizing acc with
  | nil => simp
  | cons a l ih => simp [ih, List.append_assoc]

theorem extractPage_eq_flatten (p : Page) :
    extractPage p =
      ((p.feed.entry.map fun g => (g.links.map Link.href).filter keepHref)).flatten := by
  simp only [extractPage, List.flatMap_def, List.filter_map]
  rfl

theorem download_file_snd (env : String → DlResponse) (url : String) (fs : FS) :
    (download_file env url fs).2 = downloadOutcome env url := by
  simp only [download_file, downloadOutcome]
  split <;> rfl

theorem download_all_outcomes (env : String → DlResponse) (urls : List String)
    (fs : FS) :
    (download_all env urls fs).2 = urls.map (downloadOutcome env) := by
  induction urls generalizing fs with
  | nil => rfl
  | cons u rest ih => simp [download_all, download_file_snd, ih]

end BulkCmrQuery

namespace BulkCmrQuery

/-! ## Claim theorems -/

/-- C6: for every string `s`, calling page discovery with the collections
argument equal to the plain string `s` returns the same result as calling it
with the one-element list `[s]`. -/
theorem str_collections_eq_singleton (env : CmrRequest → CmrResponse)
    (base_url s : String) (datetime_range : Datetime × Datetime)
    (page_size : Nat) :
    get_cmr_pages_urls env base_url (.str s) datetime_range page_size =
      get_cmr_pages_urls env base_url (.list [s]) datetime_range page_size := rfl

/-- C9: when the preliminary request succeeds with status 200 but the
`CMR-Hits` header reports 0 hits, page discovery returns the empty list of
page URLs — not `none` and not an error. -/
theorem zero_hits_empty_pages (env : CmrRequest → CmrResponse)
    (base_url : String) (collections : Collections)
    (datetime_range : Datetime × Datetime) (page_size : Nat)
    (hps : 0 < page_size)
    (hstat : (env (cmrRequest base_url collections datetime_range page_size)).status_code = 200)
    (hhits : (env (cmrRequest base_url collections datetime_range page_size)).cmr_hits = 0) :
    (get_cmr_pages_urls env base_url collections datetime_range page_size).2 = some [] := by
  have h0 : (page_size - 1) / page_size = 0 := Nat.div_eq_of_lt (by omega)
  simp [get_cmr_pages_urls, hstat, hhits, h0]

/-- Witness for C9 at a concrete zero-hit success response. -/
theorem zero_hits_empty_pages_witness :
    (get_cmr_pages_urls (okEnv 0) "base" (.list ["C1"]) dtRange 10).2 = some [] :=
  zero_hits_empty_pages (okEnv 0) "base" (.list ["C1"]) dtRange 10 (by decide) rfl rfl

/-- C10: for every asset URL whose response status is not 200, `download_file`
returns with the filesystem unchanged, recording only the per-file failure:
the destination file is never opened, created, or truncated. -/
theorem download_file_error_fs_unchanged (env : String → DlResponse)
    (url : String) (fs : FS) (h : (env url).status ≠ 200) :
    download_file env url fs = (fs, .failed url) := by
  simp [download_file, h]

/-- Witness for C10: a 404 response leaves a concrete filesystem unchanged. -/
theorem download_file_error_fs_unchanged_witness :
    download_file dlFailEnv "https://a/1.h5" [("data/old.h5", [3])] =
      ([("data/old.h5", [3])], .failed "https://a/1.h5") :=
  download_file_error_fs_unchanged dlFailEnv "https://a/1.h5"
    [("data/old.h5", [3])] (by decide)

/-- C4: a non-200 status on the preliminary request makes page discovery
return `none` (printing a message that carries the status code) rather than a
page list, and the callers `get_tasks` / `get_urls` then raise `TypeError`
instead of proceeding to extraction with discovered pages. -/
theorem discovery_failure_blocks_extraction (env : CmrRequest → CmrResponse)
    (pages : String → Page) (base_url : String) (collections : Collections)
    (datetime_range : Datetime × Datetime) (page_size : Nat)
    (hstat : (env (cmrRequest base_url collections datetime_range page_size)).status_code ≠ 200) :
    (get_cmr_pages_urls env base_url collections datetime_range page_size).2 = none ∧
    (∃ msg, (get_cmr_pages_urls env base_url collections datetime_range page_size).1 = [msg] ∧
      pyIn (toString (env (cmrRequest base_url collections datetime_range page_size)).status_code)
        msg = true) ∧
    get_tasks env base_url collections datetime_range page_size = .error .typeError ∧
    get_urls env pages base_url collections datetime_range page_size = .error .typeError := by
  have h2 : (get_cmr_pages_urls env base_url collections datetime_range page_size).2 = none := by
    simp [get_cmr_pages_urls, hstat]
  have htasks : get_tasks env base_url collections datetime_range page_size =
      .error .typeError := by
    simp [get_tasks, h2]
  refine ⟨h2,
    ⟨"Request for collections: " ++ toString collections.toList ++ " failed. Status code: " ++
        toString (env (cmrRequest base_url collections datetime_range page_size)).status_code,
      ?_, pyIn_append_self _ _⟩,
    htasks, ?_⟩
  · simp [get_cmr_pages_urls, hstat]
  · simp [get_urls, htasks]

/-- Witness for C4 at a concrete 404 discovery response. -/
theorem discovery_failure_blocks_extraction_witness :
    (get_cmr_pages_urls (errEnv 404) "base" (.list ["C1"]) dtRange 10).2 = none ∧
    (∃ msg, (get_cmr_pages_urls (errEnv 404) "base" (.list ["C1"]) dtRange 10).1 = [msg] ∧
      pyIn (toString ((errEnv 404) (cmrRequest "base" (.list ["C1"]) dtRange 10)).status_code)
        msg = true) ∧
    get_tasks (errEnv 404) "base" (.list ["C1"]) dtRange 10 = .error .typeError ∧
    get_urls (errEnv 404) mixedPages "base" (.list ["C1"]) dtRange 10 = .error .typeError :=
  discovery_failure_blocks_extraction (errEnv 404) mixedPages "base" (.list ["C1"])
    dtRange 10 (by decide)

end BulkCmrQuery

namespace BulkCmrQuery

/-- `(h + p - 1) / p` is exactly the ceiling of `h / p`: it is an upper bound
scaled back over `h`, and the least such bound. -/
theorem ceil_div_bounds (h p : Nat) (hp : 0 < p) (hh : 0 < h) :
    h ≤ ((h + p - 1) / p) * p ∧ (((h + p - 1) / p) - 1) * p < h := by
  have h1 : h ≤ p • (h ⌈/⌉ p) := le_smul_ceilDiv hp
  rw [Nat.ceilDiv_eq_add_pred_div, smul_eq_mul] at h1
  have hNpos : 0 < (h + p - 1) / p := by
    rcases Nat.eq_zero_or_pos ((h + p - 1) / p) with h0 | h0
    · rw [h0, Nat.mul_zero] at h1; omega
    · exact h0
  constructor
  · rw [Nat.mul_comm]; exact h1
  · by_contra hcon
    push_neg at hcon
    have hle : h ⌈/⌉ p ≤ (h + p - 1) / p - 1 :=
      (ceilDiv_le_iff_le_mul hp).2 (by rw [Nat.mul_comm]; exact hcon)
    rw [Nat.ceilDiv_eq_add_pred_div] at hle
    omega

/-- C1: on a 200 response with `hits > 0` and `page_size > 0`, page discovery
returns exactly `ceil(hits / page_size)` page URLs (the returned length `N`
satisfies `hits ≤ N * page_size` and `(N - 1) * page_size < hits`, which pins
`N` as the ceiling), and the list is precisely the resolved request URL with
page indices `1..N` appended in ascending order — no gaps, no duplicates —
with the endpoint rewritten to the `.json` structured format by `pageUrl`. -/
theorem pages_cover_hits (env : CmrRequest → CmrResponse) (base_url : String)
    (collections : Collections) (datetime_range : Datetime × Datetime)
    (page_size : Nat) (hps : 0 < page_size)
    (hstat : (env (cmrRequest base_url collections datetime_range page_size)).status_code = 200)
    (hhits : 0 < (env (cmrRequest base_url collections datetime_range page_size)).cmr_hits) :
    ∃ urls,
      (get_cmr_pages_urls env base_url collections datetime_range page_size).2 = some urls ∧
      urls.length =
        ((env (cmrRequest base_url collections datetime_range page_size)).cmr_hits
          + page_size - 1) / page_size ∧
      (env (cmrRequest base_url collections datetime_range page_size)).cmr_hits ≤
        urls.length * page_size ∧
      (urls.length - 1) * page_size <
        (env (cmrRequest base_url collections datetime_range page_size)).cmr_hits ∧
      urls = (List.range' 1 urls.length).map
        (pageUrl (env (cmrRequest base_url collections datetime_range page_size)).url) := by
  have hb := ceil_div_bounds
    (env (cmrRequest base_url collections datetime_range page_size)).cmr_hits page_size hps hhits
  refine ⟨(List.range' 1
      (((env (cmrRequest base_url collections datetime_range page_size)).cmr_hits
        + page_size - 1) / page_size)).map
      (pageUrl (env (cmrRequest base_url collections datetime_range page_size)).url),
    ?_, ?_, ?_, ?_, ?_⟩
  · simp [get_cmr_pages_urls, hstat]
  · simp
  · simpa using hb.1
  · simpa using hb.2
  · simp

/-- Witness for C1: 25 hits with page size 10 give the three page URLs
`page_num=1..3`. -/
theorem pages_cover_hits_witness :
    ∃ urls,
      (get_cmr_pages_urls (okEnv 25) "base" (.list ["C1"]) dtRange 10).2 = some urls ∧
      urls.length =
        (((okEnv 25) (cmrRequest "base" (.list ["C1"]) dtRange 10)).cmr_hits + 10 - 1) / 10 ∧
      ((okEnv 25) (cmrRequest "base" (.list ["C1"]) dtRange 10)).cmr_hits ≤
        urls.length * 10 ∧
      (urls.length - 1) * 10 <
        ((okEnv 25) (cmrRequest "base" (.list ["C1"]) dtRange 10)).cmr_hits ∧
      urls = (List.range' 1 urls.length).map
        (pageUrl ((okEnv 25) (cmrRequest "base" (.list ["C1"]) dtRange 10)).url) :=
  pages_cover_hits (okEnv 25) "base" (.list ["C1"]) dtRange 10 (by decide) rfl (by decide)

end BulkCmrQuery

namespace BulkCmrQuery

/-- C2 counterexample: the filter tests `'https' in href`, substring
containment, not the URL scheme — a plain-http link whose name contains
`https` is returned by `get_urls`. -/
theorem extract_keeps_non_https_scheme :
    get_urls (okEnv 1) cexPages "base" (.list ["C1"]) dtRange 10 =
      .ok ["http://evil.example/data-https.h5"] ∧
    schemeOf "http://evil.example/data-https.h5" = some "http" :=
  ⟨rfl, rfl⟩

/-- C2 (amended): every link `get_urls` returns has an href that contains the
substring `https` and ends with `.h5`, regardless of the other link shapes in
the pages. -/
theorem get_urls_links_pass_filter (env : CmrRequest → CmrResponse)
    (pages : String → Page) (base_url : String) (collections : Collections)
    (datetime_range : Datetime × Datetime) (page_size : Nat) (result : List String)
    (h : get_urls env pages base_url collections datetime_range page_size = .ok result) :
    ∀ l ∈ result, pyIn "https" l = true ∧ pyEndsWith l ".h5" = true := by
  intro l hl
  unfold get_urls at h
  cases htasks : get_tasks env base_url collections datetime_range page_size with
  | error e => rw [htasks] at h; cases h
  | ok urls =>
    rw [htasks] at h
    injection h with h
    subst h
    rw [foldl_append_eq_flatten] at hl
    simp only [List.nil_append, List.mem_flatten, List.mem_map] at hl
    obtain ⟨_, ⟨p, _, rfl⟩, hlp⟩ := hl
    simp only [extractPage, List.mem_flatMap, List.mem_map, List.mem_filter] at hlp
    obtain ⟨g, _, link, ⟨_, hkeep⟩, rfl⟩ := hlp
    simpa only [keepHref, Bool.and_eq_true] using hkeep

/-- Witness for the amended C2 at a concrete mixed-shape page set. -/
theorem get_urls_links_pass_filter_witness :
    pyIn "https" "https://a/x.h5" = true ∧ pyEndsWith "https://a/x.h5" ".h5" = true :=
  get_urls_links_pass_filter (okEnv 1) mixedPages "base" (.list ["C1"]) dtRange 10
    ["https://a/x.h5"] rfl "https://a/x.h5" (by decide)

/-- C7: extraction returns exactly the concatenation of retained links across
all pages in page order, then entry order, then link order within an entry —
no sorting, no deduplication — and returns the empty list (not an error) when
zero links match. -/
theorem get_urls_concat_order (env : CmrRequest → CmrResponse)
    (pages : String → Page) (base_url : String) (collections : Collections)
    (datetime_range : Datetime × Datetime) (page_size : Nat) (urls : List String)
    (h : (get_cmr_pages_urls env base_url collections datetime_range page_size).2 = some urls) :
    get_urls env pages base_url collections datetime_range page_size =
      .ok (((urls.map pages).map fun p =>
        ((p.feed.entry.map fun g => (g.links.map Link.href).filter keepHref)).flatten).flatten) ∧
    ((∀ u ∈ urls, extractPage (pages u) = []) →
      get_urls env pages base_url collections datetime_range page_size = .ok []) := by
  have htasks : get_tasks env base_url collections datetime_range page_size = .ok urls := by
    unfold get_tasks; rw [h]
  have hext : (extractPage : Page → List String) = fun p =>
      ((p.feed.entry.map fun g => (g.links.map Link.href).filter keepHref)).flatten :=
    funext extractPage_eq_flatten
  have hok : get_urls env pages base_url collections datetime_range page_size =
      .ok ((urls.map pages).map extractPage).flatten := by
    unfold get_urls
    rw [htasks]
    simp only [foldl_append_eq_flatten, List.nil_append]
  constructor
  · rw [hok, hext]
  · intro hempty
    have hnil : ((urls.map pages).map extractPage).flatten = [] := by
      rw [List.flatten_eq_nil_iff]
      intro l hlmem
      simp only [List.mem_map] at hlmem
      obtain ⟨p, ⟨u, hu, rfl⟩, rfl⟩ := hlmem
      exact hempty u hu
    rw [hok, hnil]

/-- Witness for C7 at a two-page discovery with mixed link shapes. -/
theorem get_urls_concat_order_witness :
    get_urls (okEnv 12) mixedPages "base" (.list ["C1"]) dtRange 10 =
      .ok (((["https://cmr.e/granules.json?ps=10&page_num=1",
              "https://cmr.e/granules.json?ps=10&page_num=2"].map mixedPages).map fun p =>
        ((p.feed.entry.map fun g => (g.links.map Link.href).filter keepHref)).flatten).flatten) ∧
    ((∀ u ∈ ["https://cmr.e/granules.json?ps=10&page_num=1",
             "https://cmr.e/granules.json?ps=10&page_num=2"],
        extractPage (mixedPages u) = []) →
      get_urls (okEnv 12) mixedPages "base" (.list ["C1"]) dtRange 10 = .ok []) :=
  get_urls_concat_order (okEnv 12) mixedPages "base" (.list ["C1"]) dtRange 10
    ["https://cmr.e/granules.json?ps=10&page_num=1",
     "https://cmr.e/granules.json?ps=10&page_num=2"] rfl

end BulkCmrQuery

namespace BulkCmrQuery

/-- C3: in every download batch, a URL whose response status is not 200 gets
a recorded per-file failure, while every URL whose response is 200 still
completes as a download; the batch is never aborted — there is exactly one
outcome per requested URL. -/
theorem download_failure_isolated (env : String → DlResponse)
    (urls : List String) (fs : FS) (i : Nat) (hi : i < urls.length)
    (hfail : (env (urls.getD i "")).status ≠ 200) :
    ((download_all env urls fs).2).length = urls.length ∧
    ((download_all env urls fs).2).getD i default = .failed (urls.getD i "") ∧
    ∀ j, j < urls.length → (env (urls.getD j "")).status = 200 →
      ((download_all env urls fs).2).getD j default = .downloaded (urls.getD j "") := by
  rw [download_all_outcomes]
  have hgl : ∀ (j : Nat), j < urls.length →
      (urls.map (downloadOutcome env)).getD j default =
        downloadOutcome env (urls.getD j "") := by
    intro j hj
    simp [List.getD_eq_getElem?_getD, List.getElem?_map, List.getElem?_eq_getElem hj]
  refine ⟨by simp, ?_, ?_⟩
  · rw [hgl i hi]
    unfold downloadOutcome
    rw [if_pos hfail]
  · intro j hj hok
    rw [hgl j hj]
    unfold downloadOutcome
    rw [if_neg (show ¬(env (urls.getD j "")).status ≠ 200 from fun hne => hne hok)]

/-- Witness for C3: asset #2 of 3 answers 404, the others 200; #2 fails,
while #1 and #3 still complete. -/
theorem download_failure_isolated_witness :
    ((download_all dl404Env ["https://a/1.h5", "https://a/2.h5", "https://a/3.h5"] []).2).length =
      3 ∧
    ((download_all dl404Env ["https://a/1.h5", "https://a/2.h5", "https://a/3.h5"] []).2).getD 1
      default = .failed "https://a/2.h5" ∧
    ((download_all dl404Env ["https://a/1.h5", "https://a/2.h5", "https://a/3.h5"] []).2).getD 0
      default = .downloaded "https://a/1.h5" ∧
    ((download_all dl404Env ["https://a/1.h5", "https://a/2.h5", "https://a/3.h5"] []).2).getD 2
      default = .downloaded "https://a/3.h5" :=
  ⟨(download_failure_isolated dl404Env ["https://a/1.h5", "https://a/2.h5", "https://a/3.h5"]
      [] 1 (by decide) (by decide)).1,
   (download_failure_isolated dl404Env ["https://a/1.h5", "https://a/2.h5", "https://a/3.h5"]
      [] 1 (by decide) (by decide)).2.1,
   (download_failure_isolated dl404Env ["https://a/1.h5", "https://a/2.h5", "https://a/3.h5"]
      [] 1 (by decide) (by decide)).2.2 0 (by decide) (by decide),
   (download_failure_isolated dl404Env ["https://a/1.h5", "https://a/2.h5", "https://a/3.h5"]
      [] 1 (by decide) (by decide)).2.2 2 (by decide) (by decide)⟩

/-- C5: when the netrc store is absent or has no entry for the URS host,
credential resolution fails (`none` = `NotAuthenticated`), and every run of
`main` detects this and returns at the authentication check: no download
request is issued and the filesystem is untouched. -/
theorem missing_credentials_abort (cmrEnv : CmrRequest → CmrResponse)
    (pagesEnv : String → Page) (dlEnv : String → DlResponse)
    (store : NetrcStore) (fs : FS)
    (h : store = .absent ∨
      ∃ entries, store = .present entries ∧ authenticators entries URS = none) :
    resolve_credentials store URS = none ∧
    ∀ r, main cmrEnv pagesEnv dlEnv store fs = .ok r →
      r.downloads = [] ∧ r.outcomes = [] ∧ r.fs = fs ∧ r.authAborted = true := by
  obtain rfl | ⟨entries, rfl, hnone⟩ := h
  · refine ⟨rfl, ?_⟩
    intro r hr
    unfold main at hr
    cases hget : get_urls cmrEnv pagesEnv (CMR_OPS ++ "/" ++ "granules")
        (Collections.list ["C1373412034-LPDAAC_ECS"])
        (⟨2021, 10, 17, 0, 0, 0⟩, ⟨2021, 10, 19, 0, 0, 0⟩) 10 with
    | error e => rw [hget] at hr; cases hr
    | ok results =>
      rw [hget] at hr
      injection hr with hr
      subst hr
      exact ⟨rfl, rfl, rfl, rfl⟩
  · refine ⟨by simp [resolve_credentials, hnone], ?_⟩
    intro r hr
    unfold main at hr
    cases hget : get_urls cmrEnv pagesEnv (CMR_OPS ++ "/" ++ "granules")
        (Collections.list ["C1373412034-LPDAAC_ECS"])
        (⟨2021, 10, 17, 0, 0, 0⟩, ⟨2021, 10, 19, 0, 0, 0⟩) 10 with
    | error e => rw [hget] at hr; cases hr
    | ok results =>
      rw [hget] at hr
      simp only [hnone] at hr
      injection hr with hr
      subst hr
      exact ⟨rfl, rfl, rfl, rfl⟩

/-- Witness for C5: the store is absent in a run whose discovery succeeds;
the run ends at the authentication check with no download issued. -/
theorem missing_credentials_abort_witness :
    resolve_credentials .absent URS = none ∧
    main (okEnv 0) mixedPages dl404Env .absent [] = .ok ⟨0, [], [], [], true⟩ ∧
    (RunResult.mk 0 [] [] [] true).downloads = [] ∧
    (RunResult.mk 0 [] [] [] true).outcomes = [] ∧
    (RunResult.mk 0 [] [] [] true).fs = ([] : FS) ∧
    (RunResult.mk 0 [] [] [] true).authAborted = true :=
  ⟨(missing_credentials_abort (okEnv 0) mixedPages dl404Env .absent [] (Or.inl rfl)).1,
   rfl,
   ((missing_credentials_abort (okEnv 0) mixedPages dl404Env .absent []
      (Or.inl rfl)).2 ⟨0, [], [], [], true⟩ rfl).1,
   ((missing_credentials_abort (okEnv 0) mixedPages dl404Env .absent []
      (Or.inl rfl)).2 ⟨0, [], [], [], true⟩ rfl).2.1,
   ((missing_credentials_abort (okEnv 0) mixedPages dl404Env .absent []
      (Or.inl rfl)).2 ⟨0, [], [], [], true⟩ rfl).2.2.1,
   ((missing_credentials_abort (okEnv 0) mixedPages dl404Env .absent []
      (Or.inl rfl)).2 ⟨0, [], [], [], true⟩ rfl).2.2.2⟩

end BulkCmrQuery

namespace BulkCmrQuery

/-- With positive chunk size and enough fuel, re-assembling the chunks gives
back the stream. -/
theorem chunksOfFuel_flatten (n : Nat) (hn : 0 < n) :
    ∀ (fuel : Nat) (l : List α), l.length ≤ fuel → (chunksOfFuel n fuel l).flatten = l := by
  intro fuel
  induction fuel with
  | zero =>
    intro l hl
    cases l with
    | nil => rfl
    | cons c rest => simp at hl
  | succ fuel ih =>
    intro l hl
    cases l with
    | nil => rfl
    | cons c rest =>
      have hlen : ((c :: rest).drop n).length ≤ fuel := by
        simp only [List.length_drop, List.length_cons]
        simp only [List.length_cons] at hl
        omega
      calc (chunksOfFuel n (fuel + 1) (c :: rest)).flatten
          = (c :: rest).take n ++ (chunksOfFuel n fuel ((c :: rest).drop n)).flatten := by
            rfl
        _ = (c :: rest).take n ++ (c :: rest).drop n := by rw [ih _ hlen]
        _ = c :: rest := List.take_append_drop n (c :: rest)

/-- The write loop of `download_file` streams the whole response body: on a
200 status the destination file ends up holding exactly the body. -/
theorem download_file_success_writes_body (env : String → DlResponse)
    (url : String) (fs : FS) (h : (env url).status = 200) :
    download_file env url fs =
      (fs.write (fileName url) (env url).body, .downloaded url) := by
  unfold download_file
  rw [if_neg (show ¬(env url).status ≠ 200 from fun hne => hne h)]
  have hjoin : ((chunksOf CHUNK (env url).body).foldl (· ++ ·) []) = (env url).body := by
    rw [show ((chunksOf CHUNK (env url).body).foldl (· ++ ·) ([] : List Nat)) =
        ((chunksOf CHUNK (env url).body).map fun x => x).flatten from
      foldl_append_eq_flatten (fun x => x) _ []]
    rw [List.map_id']
    exact chunksOfFuel_flatten CHUNK (by decide) _ _ (Nat.le_refl _)
  rw [hjoin]

end BulkCmrQuery
